import Mathlib

/-!
Shallow embedding of the two Streamlit dashboards of this repository
(pages/00_gemini and pages/01_claude).  The Korean column and field names of
the source are not valid Lean identifiers, so they are transliterated:

  날짜 = date, 평균기온 = avgTemp, 최저기온 = minTemp, 최고기온 = maxTemp,
  월 = month, 일 = day, 년 = year.

Temperatures are modelled as rationals; a value that failed numeric coercion
(a NaN cell in the dataframe) is modelled as `none`.
-/

namespace TempApp

/-- A calendar date, as parsed from the date (날짜) column of the CSV. -/
structure Date where
  year : ℕ
  month : ℕ
  day : ℕ
deriving DecidableEq

/-- One row of the cleaned dataframe produced by load_data: the date plus the
three temperature columns.  A temperature cell that failed numeric coercion
(NaN) is `none`; rows with an unparseable date are dropped by load_data, so
the date itself is total. -/
structure Record where
  date : Date
  avgTemp : Option ℚ
  minTemp : Option ℚ
  maxTemp : Option ℚ
deriving DecidableEq

/-- Derived month column (월) added by load_data. -/
def rmonth (r : Record) : ℕ := r.date.month

/-- Derived day column (일) added by load_data. -/
def rday (r : Record) : ℕ := r.date.day

/-- Derived year column (년) added by load_data. -/
def ryear (r : Record) : ℕ := r.date.year

/-- The three temperature columns a query can name (the temp_type argument of
calculate_percentile, a runtime column-name string in the source). -/
inductive TempField
  | avgTemp
  | minTemp
  | maxTemp
deriving DecidableEq

/-- Dynamic column access same_day_data[temp_type]. -/
def getField : TempField → Record → Option ℚ
  | TempField.avgTemp, r => r.avgTemp
  | TempField.minTemp, r => r.minTemp
  | TempField.maxTemp, r => r.maxTemp

/-- The same-month/day filter df[(df[월] == month) & (df[일] == day)] shared
by get_historical_stats and calculate_percentile. -/
def sameDayData (df : List Record) (month day : ℕ) : List Record :=
  df.filter (fun r => decide (rmonth r = month ∧ rday r = day))

/-- pandas Series.mean(): NaN cells are skipped; the mean of a series with no
non-missing value is NaN (`none`). -/
def seriesMean (l : List (Option ℚ)) : Option ℚ :=
  let v := l.filterMap id
  if v.length = 0 then none else some (v.sum / v.length)

/-- pandas Series.max(): NaN cells are skipped; NaN (`none`) when nothing is
left. -/
def seriesMax (l : List (Option ℚ)) : Option ℚ := (l.filterMap id).max?

/-- pandas Series.min(): NaN cells are skipped; NaN (`none`) when nothing is
left. -/
def seriesMin (l : List (Option ℚ)) : Option ℚ := (l.filterMap id).min?

/-- The dict built by get_historical_stats.  Keys are transliterated:
평균기온_평균 = avgTemp_mean, 평균기온_최고 = avgTemp_max, 평균기온_최저 =
avgTemp_min, and likewise for the minTemp and maxTemp columns; 데이터_수 =
count, 연도_범위 = yearRange, and history is the same-day sub-table sorted by
year ascending.  The three sample-standard-deviation entries (평균기온_std
etc.) involve a square root, are consumed by no claim and no later code, and
are left out of the embedding. -/
structure HistoricalStats where
  avgTemp_mean : Option ℚ
  avgTemp_max : Option ℚ
  avgTemp_min : Option ℚ
  minTemp_mean : Option ℚ
  minTemp_max : Option ℚ
  minTemp_min : Option ℚ
  maxTemp_mean : Option ℚ
  maxTemp_max : Option ℚ
  maxTemp_min : Option ℚ
  count : ℕ
  yearRange : String
  history : List Record
deriving DecidableEq

/-- get_historical_stats(df, month, day): returns None when the same-month/day
filter is empty, otherwise the statistics dict.  sort_values(년) is modelled
by a stable insertion sort on the year column. -/
def get_historical_stats (df : List Record) (month day : ℕ) :
    Option HistoricalStats :=
  let s := sameDayData df month day
  if s.length = 0 then none
  else some
    { avgTemp_mean := seriesMean (s.map (·.avgTemp))
      avgTemp_max := seriesMax (s.map (·.avgTemp))
      avgTemp_min := seriesMin (s.map (·.avgTemp))
      minTemp_mean := seriesMean (s.map (·.minTemp))
      minTemp_max := seriesMax (s.map (·.minTemp))
      minTemp_min := seriesMin (s.map (·.minTemp))
      maxTemp_mean := seriesMean (s.map (·.maxTemp))
      maxTemp_max := seriesMax (s.map (·.maxTemp))
      maxTemp_min := seriesMin (s.map (·.maxTemp))
      count := s.length
      yearRange := toString (((s.map ryear).min?).getD 0) ++ "~" ++
        toString (((s.map ryear).max?).getD 0)
      history := s.insertionSort (fun a b => ryear a ≤ ryear b) }

/-- The non-missing values of the queried column among the same-day records:
temps = same_day_data[temp_type].dropna(). -/
def validTemps (df : List Record) (month day : ℕ) (temp_type : TempField) :
    List ℚ :=
  (sameDayData df month day).filterMap (getField temp_type)

/-- Comparison of a float cell with the query value temp_value, which itself
may be NaN (`none`): any comparison with NaN is false. -/
def ltVal (t : ℚ) (temp_value : Option ℚ) : Bool :=
  match temp_value with
  | some x => decide (t < x)
  | none => false

/-- calculate_percentile(df, month, day, temp_value, temp_type): None when the
same-month/day filter is empty; otherwise
(temps < temp_value).sum() / len(temps) * 100 over the dropna-ed column. -/
def calculate_percentile (df : List Record) (month day : ℕ)
    (temp_value : Option ℚ) (temp_type : TempField) : Option ℚ :=
  if (sameDayData df month day).length = 0 then none
  else
    let temps := validTemps df month day temp_type
    some (((temps.countP (fun t => ltVal t temp_value) : ℚ) /
      (temps.length : ℚ)) * 100)

/-- get_temperature_description(percentile): the seven-band classifier. -/
def get_temperature_description (percentile : ℚ) : String × String :=
  if percentile ≤ 5 then ("🥶 역대급 추위!", "blue")
  else if percentile ≤ 15 then ("❄️ 매우 추움", "lightblue")
  else if percentile ≤ 30 then ("🌨️ 다소 추움", "cyan")
  else if percentile ≤ 70 then ("🌤️ 평년 수준", "gray")
  else if percentile ≤ 85 then ("☀️ 다소 따뜻함", "orange")
  else if percentile ≤ 95 then ("🔥 매우 따뜻함", "orangered")
  else ("🌋 역대급 더위!", "red")

/-- SUNEUNG_DATES of pages/01_claude: insertion-ordered mapping from the
학년도 label to the exam date (the ISO date strings of the source, parsed). -/
def SUNEUNG_DATES : List (ℕ × Date) :=
  [(1994, ⟨1993, 11, 16⟩), (1995, ⟨1994, 11, 23⟩), (1996, ⟨1995, 11, 22⟩),
   (1997, ⟨1996, 11, 13⟩), (1998, ⟨1997, 11, 19⟩), (1999, ⟨1998, 11, 18⟩),
   (2000, ⟨1999, 11, 17⟩), (2001, ⟨2000, 11, 15⟩), (2002, ⟨2001, 11, 7⟩),
   (2003, ⟨2002, 11, 6⟩), (2004, ⟨2003, 11, 5⟩), (2005, ⟨2004, 11, 17⟩),
   (2006, ⟨2005, 11, 23⟩), (2007, ⟨2006, 11, 16⟩), (2008, ⟨2007, 11, 15⟩),
   (2009, ⟨2008, 11, 13⟩), (2010, ⟨2009, 11, 12⟩), (2011, ⟨2010, 11, 18⟩),
   (2012, ⟨2011, 11, 10⟩), (2013, ⟨2012, 11, 8⟩), (2014, ⟨2013, 11, 7⟩),
   (2015, ⟨2014, 11, 13⟩), (2016, ⟨2015, 11, 12⟩), (2017, ⟨2016, 11, 17⟩),
   (2018, ⟨2017, 11, 23⟩), (2019, ⟨2018, 11, 15⟩), (2020, ⟨2019, 11, 14⟩),
   (2021, ⟨2020, 12, 3⟩), (2022, ⟨2021, 11, 18⟩), (2023, ⟨2022, 11, 17⟩),
   (2024, ⟨2023, 11, 16⟩), (2025, ⟨2024, 11, 14⟩), (2026, ⟨2025, 11, 13⟩)]

/-- suneung_dates of pages/00_gemini: the other embedded exam-date calendar. -/
def suneung_dates : List (ℕ × Date) :=
  [(1994, ⟨1994, 11, 23⟩), (1995, ⟨1995, 11, 22⟩), (1996, ⟨1996, 11, 13⟩),
   (1997, ⟨1997, 11, 19⟩), (1998, ⟨1998, 11, 18⟩), (1999, ⟨1999, 11, 17⟩),
   (2000, ⟨2000, 11, 15⟩), (2001, ⟨2001, 11, 7⟩), (2002, ⟨2002, 11, 6⟩),
   (2003, ⟨2003, 11, 5⟩), (2004, ⟨2004, 11, 17⟩), (2005, ⟨2005, 11, 23⟩),
   (2006, ⟨2006, 11, 16⟩), (2007, ⟨2007, 11, 15⟩), (2008, ⟨2008, 11, 13⟩),
   (2009, ⟨2009, 11, 12⟩), (2010, ⟨2010, 11, 18⟩), (2011, ⟨2011, 11, 10⟩),
   (2012, ⟨2012, 11, 8⟩), (2013, ⟨2013, 11, 7⟩), (2014, ⟨2014, 11, 13⟩),
   (2015, ⟨2015, 11, 12⟩), (2016, ⟨2016, 11, 17⟩), (2017, ⟨2017, 11, 23⟩),
   (2018, ⟨2018, 11, 15⟩), (2019, ⟨2019, 11, 14⟩), (2020, ⟨2020, 12, 3⟩),
   (2021, ⟨2021, 11, 18⟩), (2022, ⟨2022, 11, 17⟩), (2023, ⟨2023, 11, 16⟩),
   (2024, ⟨2024, 11, 14⟩), (2025, ⟨2025, 11, 13⟩)]

/-- One dict appended to suneung_data in the Tab-2 loop of pages/01_claude.
Keys transliterated: 학년도 = yearLabel, 시험일 = examDate, 평균기온 =
avgTemp, 최저기온 = minTemp, 최고기온 = maxTemp, 역사평균 = histMean, 편차 =
deviation, 퍼센타일 = pct, 연도 = year. -/
structure SuneungEntry where
  yearLabel : String
  examDate : Date
  avgTemp : Option ℚ
  minTemp : Option ℚ
  maxTemp : Option ℚ
  histMean : Option ℚ
  deviation : Option ℚ
  pct : Option ℚ
  year : ℕ
deriving DecidableEq

/-- Float subtraction where either side may be NaN (`none`). -/
def optSub (a b : Option ℚ) : Option ℚ :=
  match a, b with
  | some x, some y => some (x - y)
  | _, _ => none

/-- The dict built for one matched calendar entry (the loop body of the
suneung_data extraction, after row = day_data.iloc[0] succeeded). -/
def suneungRow (df : List Record) (year : ℕ) (date : Date) (row : Record) :
    SuneungEntry :=
  let stats := get_historical_stats df date.month date.day
  { yearLabel := toString year ++ "학년도"
    examDate := date
    avgTemp := row.avgTemp
    minTemp := row.minTemp
    maxTemp := row.maxTemp
    histMean := match stats with
      | none => none
      | some st => st.avgTemp_mean
    deviation := match stats with
      | none => none
      | some st => optSub row.avgTemp st.avgTemp_mean
    pct := match stats with
      | none => none
      | some _ => calculate_percentile df date.month date.day row.avgTemp
          TempField.avgTemp
    year := year }

/-- The Fixed-Date Annotator loop of pages/01_claude (Tab 2): iterate the
SUNEUNG_DATES mapping in order; for each entry look up the exact-date record
df[df[날짜] == date] and, when a row exists, append the enriched dict;
entries with no matching row are skipped. -/
def suneung_data (df : List Record) : List SuneungEntry :=
  SUNEUNG_DATES.filterMap (fun yd =>
    match df.find? (fun r => decide (r.date = yd.2)) with
    | none => none
    | some row => some (suneungRow df yd.1 yd.2 row))

/-- Whether a calendar entry has a matching dataset record (len(day_data) > 0
in the source loop). -/
def hasMatch (df : List Record) (yd : ℕ × Date) : Bool :=
  (df.find? (fun r => decide (r.date = yd.2))).isSome

/-- pandas Series.rank(ascending=False, method=min) on the non-missing
same-day values (pages/00_gemini, Tab 1): a value's rank is one plus the
position of its first occurrence in a stable descending sort of the series. -/
def rankDescMin (l : List ℚ) (x : ℚ) : ℕ :=
  ((l.insertionSort (fun a b => b ≤ a)).takeWhile (fun y => decide (y ≠ x))).length + 1

/-- pandas Series.median() of a non-empty list: middle element of the
ascending sort for odd length, mean of the two middle elements for even
length.  Used only to state the amended form of the deviation-sign claim. -/
def median (l : List ℚ) : Option ℚ :=
  if l.length = 0 then none
  else if l.length % 2 = 1 then
    some ((l.insertionSort (fun a b => a ≤ b)).getD (l.length / 2) 0)
  else
    some (((l.insertionSort (fun a b => a ≤ b)).getD (l.length / 2 - 1) 0
      + (l.insertionSort (fun a b => a ≤ b)).getD (l.length / 2) 0) / 2)

/-! Concrete datasets used in scenario conjuncts, witnesses and
counterexamples. -/

/-- The Nov 13 scenario dataset of the spec: average temperatures
-2.0, 1.0, 3.0, -1.0, 0.5 across five years. -/
def novDf : List Record :=
  [⟨⟨2019, 11, 13⟩, some (-2), none, none⟩,
   ⟨⟨2020, 11, 13⟩, some 1, none, none⟩,
   ⟨⟨2021, 11, 13⟩, some 3, none, none⟩,
   ⟨⟨2022, 11, 13⟩, some (-1), none, none⟩,
   ⟨⟨2023, 11, 13⟩, some (1/2), none, none⟩]

/-- A dataset whose Nov 13 distribution is 0, 10, 10; the 2025-11-13 record
(value 10) is the exam-day record of the 2026 calendar entry. -/
def tieDf : List Record :=
  [⟨⟨2023, 11, 13⟩, some 0, none, none⟩,
   ⟨⟨2024, 11, 13⟩, some 10, none, none⟩,
   ⟨⟨2025, 11, 13⟩, some 10, none, none⟩]

/-- A dataset with one Nov 13 record whose queried column is missing. -/
def allMissingDf : List Record :=
  [⟨⟨2020, 11, 13⟩, none, none, none⟩]

/-! Shared helper lemmas. -/

/-- If the dropna-ed column is non-empty then the same-day filter matched. -/
lemma sameDay_ne_nil_of_validTemps (df : List Record) (month day : ℕ)
    (f : TempField) (h : validTemps df month day f ≠ []) :
    (sameDayData df month day).length ≠ 0 := by
  intro h0
  apply h
  unfold validTemps
  rw [List.length_eq_zero] at h0
  rw [h0]
  rfl

/-- Unfolding of calculate_percentile when the same-day filter matched. -/
lemma calculate_percentile_eq (df : List Record) (month day : ℕ)
    (v : ℚ) (f : TempField) (h : (sameDayData df month day).length ≠ 0) :
    calculate_percentile df month day (some v) f
      = some ((((validTemps df month day f).countP
            (fun t => decide (t < v)) : ℚ) /
          ((validTemps df month day f).length : ℚ)) * 100) := by
  unfold calculate_percentile
  rw [if_neg h]
  rfl

/-! ### C1: the percentile formula, its range, and the Nov 13 scenario -/

/-- C1.  With at least one matching non-missing value of the queried field,
calculate_percentile returns (strictly-less count) / (total count) × 100, a
value in [0, 100]; on the Nov 13 distribution -2, 1, 3, -1, 0.5 the
percentile of 1.0 is exactly 60. -/
theorem percentile_strict_less_formula (df : List Record) (month day : ℕ)
    (v : ℚ) (f : TempField) (h : validTemps df month day f ≠ []) :
    (calculate_percentile df month day (some v) f
      = some ((((validTemps df month day f).countP
            (fun t => decide (t < v)) : ℚ) /
          ((validTemps df month day f).length : ℚ)) * 100))
    ∧ (∀ p, calculate_percentile df month day (some v) f = some p →
        0 ≤ p ∧ p ≤ 100)
    ∧ calculate_percentile novDf 11 13 (some 1) TempField.avgTemp
        = some 60 := by
  have hs := sameDay_ne_nil_of_validTemps df month day f h
  have heq := calculate_percentile_eq df month day v f hs
  refine ⟨heq, ?_, ?_⟩
  · intro p hp
    rw [heq] at hp
    have hp2 := Option.some.inj hp
    set temps := validTemps df month day f with htemps
    have hn : 0 < temps.length := List.length_pos.mpr h
    have hnq : (0 : ℚ) < (temps.length : ℚ) := by exact_mod_cast hn
    have hk : (temps.countP (fun t => decide (t < v)) : ℚ) ≤
        (temps.length : ℚ) := by
      exact_mod_cast List.countP_le_length _
    have hk0 : (0 : ℚ) ≤ (temps.countP (fun t => decide (t < v)) : ℚ) := by
      positivity
    constructor
    · rw [← hp2]; positivity
    · rw [← hp2]
      have h1 : (temps.countP (fun t => decide (t < v)) : ℚ) /
          (temps.length : ℚ) ≤ 1 := by
        rw [div_le_one hnq]; exact hk
      calc (temps.countP (fun t => decide (t < v)) : ℚ) /
            (temps.length : ℚ) * 100 ≤ 1 * 100 := by
            apply mul_le_mul_of_nonneg_right h1; norm_num
        _ = 100 := by norm_num
  · norm_num [calculate_percentile, validTemps, sameDayData, rmonth, rday,
      ltVal, getField, novDf, List.filter, List.filterMap, List.countP,
      List.countP.go]

/-- Witness for C1: the hypotheses are satisfiable at the scenario dataset. -/
theorem percentile_strict_less_formula_witness :
    calculate_percentile novDf 11 13 (some 1) TempField.avgTemp = some 60 :=
  (percentile_strict_less_formula novDf 11 13 1 TempField.avgTemp
    (by decide)).2.2

/-! ### C2: NotFound guard equivalence of stats and percentile -/

/-- C2.  get_historical_stats and calculate_percentile return None exactly
when the same-month/day filter matched zero records, and they never fail
otherwise (both are total functions of the embedding). -/
theorem notfound_iff_no_match (df : List Record) (month day : ℕ)
    (v : Option ℚ) (f : TempField) :
    (get_historical_stats df month day = none ↔ sameDayData df month day = [])
    ∧ (calculate_percentile df month day v f = none ↔
        sameDayData df month day = [])
    ∧ (calculate_percentile df month day v f = none ↔
        get_historical_stats df month day = none) := by
  by_cases hc : (sameDayData df month day).length = 0
  · have hnil : sameDayData df month day = [] := List.length_eq_zero.mp hc
    constructor
    · simp [get_historical_stats, hc, hnil]
    constructor
    · simp [calculate_percentile, hc, hnil]
    · simp [calculate_percentile, get_historical_stats, hc]
  · have hnil : ¬ sameDayData df month day = [] := by
      intro h0; exact hc (by rw [h0]; rfl)
    constructor
    · simp [get_historical_stats, hc, hnil]
    constructor
    · simp [calculate_percentile, hc, hnil]
    · simp [calculate_percentile, get_historical_stats, hc]

/-! ### C9: the two embedded exam-date calendars disagree -/

/-- C9.  The two dashboards assign different dates to the 1994 label: the
claude version maps it to 1993-11-16 while the gemini version maps it to
1994-11-23, so the two literal calendars are not equal. -/
theorem calendars_disagree :
    SUNEUNG_DATES.lookup 1994 = some ⟨1993, 11, 16⟩
    ∧ suneung_dates.lookup 1994 = some ⟨1994, 11, 23⟩
    ∧ ((⟨1993, 11, 16⟩ : Date) ≠ ⟨1994, 11, 23⟩)
    ∧ SUNEUNG_DATES ≠ suneung_dates := by decide

/-! ### C10: the zero-denominator gap of the NotFound guard -/

/-- C10.  The None guard of calculate_percentile checks only that the
same-day filter is non-empty: on a dataset whose only matching record has a
missing queried value, the guard passes while the dropna-ed column is empty
(denominator zero); the denominator is positive exactly under the
precondition that some matching record is non-missing in that column. -/
theorem percentile_denominator_guard :
    (∀ (df : List Record) (month day : ℕ) (f : TempField),
      (∃ r ∈ sameDayData df month day, getField f r ≠ none) →
        0 < (validTemps df month day f).length)
    ∧ sameDayData allMissingDf 11 13 ≠ []
    ∧ validTemps allMissingDf 11 13 TempField.avgTemp = []
    ∧ calculate_percentile allMissingDf 11 13 (some 0) TempField.avgTemp
        ≠ none := by
  constructor
  · intro df month day f hr
    obtain ⟨r, hmem, hne⟩ := hr
    obtain ⟨q, hq⟩ := Option.ne_none_iff_exists.mp hne
    apply List.length_pos.mpr
    intro h0
    have : q ∈ validTemps df month day f :=
      List.mem_filterMap.mpr ⟨r, hmem, hq.symm⟩
    rw [h0] at this
    exact List.not_mem_nil q this
  · refine ⟨by decide, by decide, by decide⟩

/-- Witness for C10: the precondition is satisfiable, e.g. on the scenario
dataset, and there the denominator is indeed positive. -/
theorem percentile_denominator_guard_witness :
    0 < (validTemps novDf 11 13 TempField.avgTemp).length :=
  percentile_denominator_guard.1 novDf 11 13 TempField.avgTemp
    ⟨⟨⟨2019, 11, 13⟩, some (-2), none, none⟩, by decide, by decide⟩

/-! ### C3: the seven-band classifier partitions [0, 100] -/

lemma band0_iff (p : ℚ) :
    get_temperature_description p = ("🥶 역대급 추위!", "blue") ↔ p ≤ 5 := by
  unfold get_temperature_description
  split_ifs <;> simp_all <;> intros <;> linarith

lemma band1_iff (p : ℚ) :
    get_temperature_description p = ("❄️ 매우 추움", "lightblue") ↔
      5 < p ∧ p ≤ 15 := by
  unfold get_temperature_description
  split_ifs <;> simp_all <;> intros <;> linarith

lemma band2_iff (p : ℚ) :
    get_temperature_description p = ("🌨️ 다소 추움", "cyan") ↔
      15 < p ∧ p ≤ 30 := by
  unfold get_temperature_description
  split_ifs <;> simp_all <;> intros <;> linarith

lemma band3_iff (p : ℚ) :
    get_temperature_description p = ("🌤️ 평년 수준", "gray") ↔
      30 < p ∧ p ≤ 70 := by
  unfold get_temperature_description
  split_ifs <;> simp_all <;> intros <;> linarith

lemma band4_iff (p : ℚ) :
    get_temperature_description p = ("☀️ 다소 따뜻함", "orange") ↔
      70 < p ∧ p ≤ 85 := by
  unfold get_temperature_description
  split_ifs <;> simp_all <;> intros <;> linarith

lemma band5_iff (p : ℚ) :
    get_temperature_description p = ("🔥 매우 따뜻함", "orangered") ↔
      85 < p ∧ p ≤ 95 := by
  unfold get_temperature_description
  split_ifs <;> simp_all <;> intros <;> linarith

lemma band6_iff (p : ℚ) :
    get_temperature_description p = ("🌋 역대급 더위!", "red") ↔ 95 < p := by
  unfold get_temperature_description
  split_ifs <;> simp_all <;> intros <;> linarith

/-- C3.  On [0, 100] the classifier output is the first band exactly on
[0, 5], the second exactly on (5, 15], then (15, 30], (30, 70], (70, 85],
(85, 95], and the last band exactly on (95, 100]: the seven bands have
inclusive upper bounds and partition [0, 100] with no gaps or overlaps.  At
the boundary, 5.0 is in the first band and 5.01 in the second. -/
theorem band_partition (p : ℚ) (h0 : 0 ≤ p) (h1 : p ≤ 100) :
    (get_temperature_description p = ("🥶 역대급 추위!", "blue") ↔ p ≤ 5)
    ∧ (get_temperature_description p = ("❄️ 매우 추움", "lightblue") ↔
        5 < p ∧ p ≤ 15)
    ∧ (get_temperature_description p = ("🌨️ 다소 추움", "cyan") ↔
        15 < p ∧ p ≤ 30)
    ∧ (get_temperature_description p = ("🌤️ 평년 수준", "gray") ↔
        30 < p ∧ p ≤ 70)
    ∧ (get_temperature_description p = ("☀️ 다소 따뜻함", "orange") ↔
        70 < p ∧ p ≤ 85)
    ∧ (get_temperature_description p = ("🔥 매우 따뜻함", "orangered") ↔
        85 < p ∧ p ≤ 95)
    ∧ (get_temperature_description p = ("🌋 역대급 더위!", "red") ↔ 95 < p)
    ∧ get_temperature_description 5 = ("🥶 역대급 추위!", "blue")
    ∧ get_temperature_description (501 / 100) = ("❄️ 매우 추움", "lightblue")
    := by
  refine ⟨band0_iff p, band1_iff p, band2_iff p, band3_iff p, band4_iff p,
    band5_iff p, band6_iff p, ?_, ?_⟩
  · exact (band0_iff 5).mpr (by norm_num)
  · exact (band1_iff (501 / 100)).mpr (by norm_num)

/-- Witness for C3 at the in-range percentile 50. -/
theorem band_partition_witness :
    get_temperature_description 50 = ("🌤️ 평년 수준", "gray") :=
  ((band_partition 50 (by norm_num) (by norm_num)).2.2.2.1).mpr
    (by norm_num)

/-! ### C4: the Fixed-Date Annotator keeps order and drops unmatched rows -/

lemma annotator_structure (cal : List (ℕ × Date)) (df : List Record) :
    ((cal.filterMap (fun yd =>
        match df.find? (fun r => decide (r.date = yd.2)) with
        | none => none
        | some row => some (suneungRow df yd.1 yd.2 row))).map (·.year)
      = (cal.filter (hasMatch df)).map (·.1))
    ∧ (cal.filterMap (fun yd =>
        match df.find? (fun r => decide (r.date = yd.2)) with
        | none => none
        | some row => some (suneungRow df yd.1 yd.2 row))).length
        + cal.countP (fun yd => !(hasMatch df yd)) = cal.length := by
  induction cal with
  | nil => simp
  | cons hd tl ih =>
    cases hfind : df.find? (fun r => decide (r.date = hd.2)) with
    | none =>
      have hm : hasMatch df hd = false := by
        unfold hasMatch
        rw [hfind]
        rfl
      constructor
      · simpa [List.filterMap_cons, List.filter_cons, hfind, hm] using ih.1
      · have := ih.2
        simp [List.filterMap_cons, List.countP_cons, hfind, hm]
        omega
    | some row =>
      have hm : hasMatch df hd = true := by
        unfold hasMatch
        rw [hfind]
        rfl
      constructor
      · simpa [List.filterMap_cons, List.filter_cons, hfind, hm,
          suneungRow] using ih.1
      · have := ih.2
        simp [List.filterMap_cons, List.countP_cons, hfind, hm]
        omega

/-- C4.  suneung_data yields one entry per calendar entry whose exact date
has a matching record, in calendar iteration order (witnessed by the year
labels), and entries with no match are silently dropped, so the output
length is the calendar size minus the number of unmatched entries. -/
theorem fixed_date_annotator (df : List Record) :
    ((suneung_data df).map (·.year)
      = (SUNEUNG_DATES.filter (hasMatch df)).map (·.1))
    ∧ (suneung_data df).length
      = SUNEUNG_DATES.length
        - SUNEUNG_DATES.countP (fun yd => !(hasMatch df yd)) := by
  have h := annotator_structure SUNEUNG_DATES df
  have h1 : (suneung_data df).map (·.year)
      = (SUNEUNG_DATES.filter (hasMatch df)).map (·.1) := h.1
  have h2 : (suneung_data df).length
      + SUNEUNG_DATES.countP (fun yd => !(hasMatch df yd))
      = SUNEUNG_DATES.length := h.2
  exact ⟨h1, by omega⟩

/-! ### C5: percentile is monotone in the query value -/

/-- C5.  For a fixed dataset and (month, day) with a non-empty same-day
distribution of the queried field, calculate_percentile is monotone
non-decreasing in the query value. -/
theorem percentile_monotone (df : List Record) (month day : ℕ)
    (f : TempField) (v1 v2 p1 p2 : ℚ)
    (h : validTemps df month day f ≠ []) (hv : v1 ≤ v2)
    (h1 : calculate_percentile df month day (some v1) f = some p1)
    (h2 : calculate_percentile df month day (some v2) f = some p2) :
    p1 ≤ p2 := by
  have hs := sameDay_ne_nil_of_validTemps df month day f h
  rw [calculate_percentile_eq df month day v1 f hs] at h1
  rw [calculate_percentile_eq df month day v2 f hs] at h2
  have hp1 := (Option.some.inj h1).symm
  have hp2 := (Option.some.inj h2).symm
  set temps := validTemps df month day f with htemps
  have hn : 0 < temps.length := List.length_pos.mpr h
  have hnq : (0 : ℚ) < (temps.length : ℚ) := by exact_mod_cast hn
  have hk : temps.countP (fun t => decide (t < v1))
      ≤ temps.countP (fun t => decide (t < v2)) := by
    apply List.countP_mono_left
    intro x _ hx
    simp only [decide_eq_true_eq] at hx ⊢
    exact lt_of_lt_of_le hx hv
  have hkq : (temps.countP (fun t => decide (t < v1)) : ℚ)
      ≤ (temps.countP (fun t => decide (t < v2)) : ℚ) := by exact_mod_cast hk
  rw [hp1, hp2]
  have hdiv : (temps.countP (fun t => decide (t < v1)) : ℚ) /
      (temps.length : ℚ)
      ≤ (temps.countP (fun t => decide (t < v2)) : ℚ) /
      (temps.length : ℚ) := by
    gcongr
  exact mul_le_mul_of_nonneg_right hdiv (by norm_num)

/-- Witness for C5 on the scenario dataset with query values 0 and 1. -/
theorem percentile_monotone_witness : (40 : ℚ) ≤ 60 := by
  apply percentile_monotone novDf 11 13 TempField.avgTemp 0 1 40 60
    (by decide) (by norm_num)
  · norm_num [calculate_percentile, validTemps, sameDayData, rmonth, rday,
      ltVal, getField, novDf, List.filter, List.filterMap, List.countP,
      List.countP.go]
  · norm_num [calculate_percentile, validTemps, sameDayData, rmonth, rday,
      ltVal, getField, novDf, List.filter, List.filterMap, List.countP,
      List.countP.go]

/-! ### C6: percentile at the historical minimum and above the maximum -/

instance : Std.Antisymm (fun a b : ℚ => a ≤ b) :=
  ⟨fun h1 h2 => le_antisymm h1 h2⟩

/-- C6.  Querying the exact historical minimum of a non-empty same-day
distribution yields percentile 0; querying any value strictly greater than
the historical maximum yields percentile 100. -/
theorem percentile_extremes (df : List Record) (month day : ℕ)
    (f : TempField) :
    (∀ v, (validTemps df month day f).min? = some v →
      calculate_percentile df month day (some v) f = some 0)
    ∧ (∀ M w, (validTemps df month day f).max? = some M → M < w →
      calculate_percentile df month day (some w) f = some 100) := by
  constructor
  · intro v hmin
    have hiff := @List.min?_eq_some_iff ℚ v _ _ _ (fun a => le_refl a)
      (fun a b => min_choice a b) (fun a b c => le_min_iff)
      (validTemps df month day f)
    obtain ⟨hvmem, hvle⟩ := hiff.mp hmin
    have hne : validTemps df month day f ≠ [] := List.ne_nil_of_mem hvmem
    have hs := sameDay_ne_nil_of_validTemps df month day f hne
    rw [calculate_percentile_eq df month day v f hs]
    have hcount : (validTemps df month day f).countP
        (fun t => decide (t < v)) = 0 := by
      apply List.countP_eq_zero.mpr
      intro a ha
      simp only [decide_eq_true_eq, not_lt]
      exact hvle a ha
    rw [hcount]
    norm_num
  · intro M w hmax hw
    have hiff := @List.max?_eq_some_iff ℚ M _ _ _ (fun a => le_refl a)
      (fun a b => max_choice a b) (fun a b c => max_le_iff)
      (validTemps df month day f)
    obtain ⟨hMmem, hMge⟩ := hiff.mp hmax
    have hne : validTemps df month day f ≠ [] := List.ne_nil_of_mem hMmem
    have hs := sameDay_ne_nil_of_validTemps df month day f hne
    rw [calculate_percentile_eq df month day w f hs]
    have hcount : (validTemps df month day f).countP
        (fun t => decide (t < w)) = (validTemps df month day f).length := by
      rw [List.countP_eq_length]
      intro a ha
      simp only [decide_eq_true_eq]
      exact lt_of_le_of_lt (hMge a ha) hw
    rw [hcount]
    have hn : 0 < (validTemps df month day f).length :=
      List.length_pos.mpr hne
    have hnq : ((validTemps df month day f).length : ℚ) ≠ 0 := by
      exact_mod_cast Nat.pos_iff_ne_zero.mp hn
    rw [div_self hnq]
    norm_num

/-- Witness for C6 on the 0, 10, 10 distribution: the minimum 0 sits at
percentile 0 and the value 11, above the maximum 10, at percentile 100. -/
theorem percentile_extremes_witness :
    calculate_percentile tieDf 11 13 (some 0) TempField.avgTemp = some 0
    ∧ calculate_percentile tieDf 11 13 (some 11) TempField.avgTemp
        = some 100 :=
  ⟨(percentile_extremes tieDf 11 13 TempField.avgTemp).1 0 (by decide),
   (percentile_extremes tieDf 11 13 TempField.avgTemp).2 10 11 (by decide)
     (by norm_num)⟩

/-! ### C8: descending rank with minimum-rank-among-ties semantics -/

instance : IsTotal ℚ (fun a b => b ≤ a) := ⟨fun a b => le_total b a⟩

instance : IsTrans ℚ (fun a b => b ≤ a) :=
  ⟨fun _ _ _ h1 h2 => le_trans h2 h1⟩

/-- In a descending-sorted list, the first occurrence of a member x is
preceded by exactly the elements strictly greater than x. -/
lemma sorted_desc_takeWhile (x : ℚ) :
    ∀ (s : List ℚ), List.Sorted (fun a b : ℚ => b ≤ a) s → x ∈ s →
    (s.takeWhile (fun y => decide (y ≠ x))).length
      = s.countP (fun y => decide (x < y)) := by
  intro s
  induction s with
  | nil => intro _ hx; cases hx
  | cons a t ih =>
    intro hs hx
    rw [List.sorted_cons] at hs
    obtain ⟨ha, ht⟩ := hs
    rw [List.countP_cons]
    by_cases hax : a = x
    · have hpa : (fun y => decide (y ≠ x)) a = false := by simp [hax]
      rw [List.takeWhile_cons_of_neg (by simp [hpa])]
      have h1 : (decide (x < a) : Bool) = false := by simp [hax]
      have h2 : t.countP (fun y => decide (x < y)) = 0 := by
        apply List.countP_eq_zero.mpr
        intro b hb
        simp only [decide_eq_true_eq, not_lt]
        rw [← hax]
        exact ha b hb
      simp [h1, h2]
    · have hxt : x ∈ t := by
        cases hx with
        | head => exact absurd rfl hax
        | tail _ h => exact h
      have hxa : x < a :=
        lt_of_le_of_ne (ha x hxt) (fun h => hax h.symm)
      rw [List.takeWhile_cons_of_pos (by simp [hax])]
      have h1 : (decide (x < a) : Bool) = true := by simp [hxa]
      rw [List.length_cons, ih ht hxt, h1]
      simp [Nat.add_comm]

/-- C8.  The descending rank of the first dashboard uses minimum-rank-among-
ties (competition ranking) semantics: every value in the same-day series has
rank 1 plus the number of strictly greater values, and equal values share
that rank. -/
theorem rank_min_ties (l : List ℚ) (x : ℚ) (hx : x ∈ l) :
    rankDescMin l x = 1 + l.countP (fun y => decide (x < y))
    ∧ ∀ y, y = x → rankDescMin l y = rankDescMin l x := by
  constructor
  · unfold rankDescMin
    have hsorted := List.sorted_insertionSort (fun a b : ℚ => b ≤ a) l
    have hperm := List.perm_insertionSort (fun a b : ℚ => b ≤ a) l
    have hmem : x ∈ l.insertionSort (fun a b => b ≤ a) :=
      hperm.mem_iff.mpr hx
    rw [sorted_desc_takeWhile x _ hsorted hmem, hperm.countP_eq]
    omega
  · intro y hy
    rw [hy]

/-- Witness for C8 on the series 3, 5, 5, 1: both occurrences of the tied
top value 5 take rank 1 = 1 + 0 strictly-greater values. -/
theorem rank_min_ties_witness :
    rankDescMin ([3, 5, 5, 1] : List ℚ) 5
      = 1 + ([3, 5, 5, 1] : List ℚ).countP (fun y => decide ((5 : ℚ) < y)) :=
  (rank_min_ties ([3, 5, 5, 1] : List ℚ) 5 (by decide)).1

/-! ### C7: the deviation-sign claim fails for the mean, holds for the
median -/

/-- C7 counterexample.  On the dataset whose Nov 13 distribution is
0, 10, 10, the single produced exam-day entry (value 10) has percentile
100/3 and deviation +10/3 from the historical mean 20/3: the percentile is
not 50 and the deviation is positive, yet the percentile is not above 50,
refuting (percentile > 50 ⇔ deviation > 0). -/
theorem deviation_sign_counterexample :
    (suneung_data tieDf).map (fun e => (e.pct, e.deviation))
      = [(some (100 / 3), some (10 / 3))]
    ∧ ((100 : ℚ) / 3 ≠ 50)
    ∧ ¬ ((100 : ℚ) / 3 > 50)
    ∧ ((10 : ℚ) / 3 > 0) := by
  refine ⟨?_, by norm_num, by norm_num, by norm_num⟩
  norm_num [suneung_data, SUNEUNG_DATES, suneungRow, get_historical_stats,
    sameDayData, seriesMean, calculate_percentile, validTemps, rmonth, rday,
    ltVal, getField, optSub, tieDf, List.filter, List.filterMap, List.countP,
    List.countP.go, List.find?]

/-- In an ascending-sorted list, position i holds a value below v exactly
when i is below the count of values below v. -/
lemma sorted_getD_lt_iff (v : ℚ) :
    ∀ (s : List ℚ), List.Sorted (fun a b : ℚ => a ≤ b) s → ∀ i, i < s.length →
    (s.getD i 0 < v ↔ i < s.countP (fun t => decide (t < v))) := by
  intro s
  induction s with
  | nil => intro _ i hi; simp at hi
  | cons a t ih =>
    intro hs i hi
    rw [List.sorted_cons] at hs
    obtain ⟨ha, ht⟩ := hs
    rw [List.countP_cons]
    cases i with
    | zero =>
      rw [List.getD_cons_zero]
      by_cases hav : a < v
      · have h1 : (if (decide (a < v)) = true then 1 else 0) = 1 := by
          simp [hav]
        rw [h1]
        exact iff_of_true hav (by omega)
      · have h1 : (if (decide (a < v)) = true then 1 else 0) = 0 := by
          simp [hav]
        have h2 : t.countP (fun t => decide (t < v)) = 0 := by
          apply List.countP_eq_zero.mpr
          intro b hb
          simp only [decide_eq_true_eq, not_lt]
          exact le_trans (not_lt.mp hav) (ha b hb)
        rw [h1, h2]
        exact iff_of_false hav (by omega)
    | succ i =>
      rw [List.getD_cons_succ]
      have hi' : i < t.length := by
        rw [List.length_cons] at hi
        omega
      have hIH := ih ht i hi'
      by_cases hav : a < v
      · have h1 : (if (decide (a < v)) = true then 1 else 0) = 1 := by
          simp [hav]
        rw [h1, hIH]
        constructor <;> intro <;> omega
      · have h1 : (if (decide (a < v)) = true then 1 else 0) = 0 := by
          simp [hav]
        have h2 : t.countP (fun t => decide (t < v)) = 0 := by
          apply List.countP_eq_zero.mpr
          intro b hb
          simp only [decide_eq_true_eq, not_lt]
          exact le_trans (not_lt.mp hav) (ha b hb)
        have hmem : t.getD i 0 ∈ t := by
          rw [List.getD_eq_getElem t 0 hi']
          exact List.getElem_mem hi'
        have hge : ¬ (t.getD i 0 < v) :=
          not_lt.mpr (le_trans (not_lt.mp hav) (ha _ hmem))
        rw [h1, h2]
        exact iff_of_false hge (by omega)

/-- The pandas median of a non-empty list is below v exactly when strictly
more than half of the values are below v, provided the strictly-below count
is not exactly half. -/
lemma median_lt_iff (temps : List ℚ) (v : ℚ) (h : temps ≠ [])
    (hne : 2 * temps.countP (fun t => decide (t < v)) ≠ temps.length) :
    ∀ med, median temps = some med →
    (med < v ↔ temps.length < 2 * temps.countP (fun t => decide (t < v))) := by
  intro med hmed
  have hsorted := List.sorted_insertionSort (fun a b : ℚ => a ≤ b) temps
  have hperm := List.perm_insertionSort (fun a b : ℚ => a ≤ b) temps
  have hlen : (temps.insertionSort (fun a b => a ≤ b)).length = temps.length :=
    hperm.length_eq
  have hcount : (temps.insertionSort (fun a b => a ≤ b)).countP
      (fun t => decide (t < v)) = temps.countP (fun t => decide (t < v)) :=
    hperm.countP_eq _
  have hn : 0 < temps.length := List.length_pos.mpr h
  unfold median at hmed
  rw [if_neg (by omega)] at hmed
  by_cases hodd : temps.length % 2 = 1
  · rw [if_pos hodd] at hmed
    have hmedeq := (Option.some.inj hmed).symm
    have hi : temps.length / 2 < (temps.insertionSort (fun a b => a ≤ b)).length := by
      rw [hlen]; omega
    have := sorted_getD_lt_iff v _ hsorted (temps.length / 2) hi
    rw [hcount] at this
    rw [hmedeq, this]
    omega
  · rw [if_neg hodd] at hmed
    have hmedeq := (Option.some.inj hmed).symm
    have hi1 : temps.length / 2 - 1 <
        (temps.insertionSort (fun a b => a ≤ b)).length := by
      rw [hlen]; omega
    have hi2 : temps.length / 2 <
        (temps.insertionSort (fun a b => a ≤ b)).length := by
      rw [hlen]; omega
    have h1 := sorted_getD_lt_iff v _ hsorted (temps.length / 2 - 1) hi1
    have h2 := sorted_getD_lt_iff v _ hsorted (temps.length / 2) hi2
    rw [hcount] at h1 h2
    rw [hmedeq]
    constructor
    · intro hmedlt
      by_contra hnk
      have hk1 : ¬ (temps.length / 2 - 1 <
          temps.countP (fun t => decide (t < v))) := by omega
      have hk2 : ¬ (temps.length / 2 <
          temps.countP (fun t => decide (t < v))) := by omega
      have hav : ¬ ((temps.insertionSort (fun a b => a ≤ b)).getD
          (temps.length / 2 - 1) 0 < v) := fun hh => hk1 (h1.mp hh)
      have hbv : ¬ ((temps.insertionSort (fun a b => a ≤ b)).getD
          (temps.length / 2) 0 < v) := fun hh => hk2 (h2.mp hh)
      rw [not_lt] at hav hbv
      linarith
    · intro hnk
      have hk1 : temps.length / 2 - 1 <
          temps.countP (fun t => decide (t < v)) := by omega
      have hk2 : temps.length / 2 <
          temps.countP (fun t => decide (t < v)) := by omega
      have hav := h1.mpr hk1
      have hbv := h2.mpr hk2
      linarith

/-- C7 amended.  For every record with a non-empty same-day distribution and
a non-missing average temperature, whenever its percentile is not exactly
50, the percentile is above 50 exactly when the record value exceeds the
historical MEDIAN of the same-day distribution (the sign of the deviation
from the mean, as originally claimed, need not agree). -/
theorem deviation_sign_median (df : List Record) (month day : ℕ)
    (r : Record) (v p med : ℚ)
    (hr : r ∈ df) (hm : rmonth r = month) (hd : rday r = day)
    (hv : r.avgTemp = some v)
    (hp : calculate_percentile df month day (some v) TempField.avgTemp
      = some p)
    (hmed : median (validTemps df month day TempField.avgTemp) = some med)
    (hne : p ≠ 50) :
    p > 50 ↔ v - med > 0 := by
  have hrs : r ∈ sameDayData df month day := by
    unfold sameDayData
    rw [List.mem_filter]
    exact ⟨hr, by simp [hm, hd]⟩
  have hvmem : v ∈ validTemps df month day TempField.avgTemp :=
    List.mem_filterMap.mpr ⟨r, hrs, by simp [getField, hv]⟩
  have htne : validTemps df month day TempField.avgTemp ≠ [] :=
    List.ne_nil_of_mem hvmem
  have hs := sameDay_ne_nil_of_validTemps df month day _ htne
  rw [calculate_percentile_eq df month day v _ hs] at hp
  have hpeq := (Option.some.inj hp).symm
  have hn0 : 0 < (validTemps df month day TempField.avgTemp).length :=
    List.length_pos.mpr htne
  have hnq : (0 : ℚ) <
      ((validTemps df month day TempField.avgTemp).length : ℚ) := by
    exact_mod_cast hn0
  have hform : (((validTemps df month day TempField.avgTemp).countP
        (fun t => decide (t < v)) : ℚ) /
      ((validTemps df month day TempField.avgTemp).length : ℚ)) * 100
      = (((validTemps df month day TempField.avgTemp).countP
        (fun t => decide (t < v)) : ℚ) * 100) /
      ((validTemps df month day TempField.avgTemp).length : ℚ) := by
    ring
  have hiff1 : p > 50 ↔ (validTemps df month day TempField.avgTemp).length
      < 2 * (validTemps df month day TempField.avgTemp).countP
        (fun t => decide (t < v)) := by
    rw [hpeq, hform, gt_iff_lt, lt_div_iff hnq]
    constructor
    · intro hh
      have hh2 : 50 * ((validTemps df month day TempField.avgTemp).length : ℕ)
          < ((validTemps df month day TempField.avgTemp).countP
            (fun t => decide (t < v)) : ℕ) * 100 := by
        exact_mod_cast hh
      omega
    · intro hh
      have hh2 : 50 * ((validTemps df month day TempField.avgTemp).length : ℕ)
          < ((validTemps df month day TempField.avgTemp).countP
            (fun t => decide (t < v)) : ℕ) * 100 := by
        omega
      exact_mod_cast hh2
  have hiff0 : p = 50 ↔ 2 * (validTemps df month day TempField.avgTemp).countP
      (fun t => decide (t < v))
      = (validTemps df month day TempField.avgTemp).length := by
    rw [hpeq, hform, div_eq_iff (ne_of_gt hnq)]
    constructor
    · intro hh
      have hh2 : ((validTemps df month day TempField.avgTemp).countP
          (fun t => decide (t < v)) : ℕ) * 100
          = 50 * ((validTemps df month day TempField.avgTemp).length : ℕ) := by
        exact_mod_cast hh
      omega
    · intro hh
      have hh2 : ((validTemps df month day TempField.avgTemp).countP
          (fun t => decide (t < v)) : ℕ) * 100
          = 50 * ((validTemps df month day TempField.avgTemp).length : ℕ) := by
        omega
      exact_mod_cast hh2
  have hne2 : 2 * (validTemps df month day TempField.avgTemp).countP
      (fun t => decide (t < v))
      ≠ (validTemps df month day TempField.avgTemp).length :=
    fun hh => hne (hiff0.mpr hh)
  have hmlt := median_lt_iff (validTemps df month day TempField.avgTemp) v
    htne hne2 med hmed
  rw [hiff1, ← hmlt, gt_iff_lt, sub_pos]

/-- Witness for C7 amended: on the Nov 13 scenario dataset the 2020 record
(value 1) has percentile 60 and the same-day median is 0.5. -/
theorem deviation_sign_median_witness :
    ((60 : ℚ) > 50 ↔ (1 : ℚ) - 1 / 2 > 0) :=
  deviation_sign_median novDf 11 13 ⟨⟨2020, 11, 13⟩, some 1, none, none⟩
    1 60 (1 / 2)
    (List.mem_cons_of_mem _ (List.mem_cons_self _ _)) rfl rfl rfl
    (by norm_num [calculate_percentile, validTemps, sameDayData, rmonth,
      rday, ltVal, getField, novDf, List.filter, List.filterMap, List.countP,
      List.countP.go])
    (by norm_num [median, validTemps, sameDayData, rmonth, rday, getField,
      novDf, List.filter, List.filterMap, List.insertionSort,
      List.orderedInsert])
    (by norm_num)

end TempApp
